import Mathlib

/-!
Verification development for the OAuth2 callback server (`src/index.js`).

The source is a single Express application with three routes (`/`,
`/callback`, `/check`), a MariaDB-backed persistence adapter with a
nullable pool (`dbPool`), and an optional file fallback writer.  We give
a shallow embedding: environment variables become `Option String`
fields, JavaScript truthiness of strings becomes `truthy`, the two
outbound axios calls become oracles (`ExchangeOutcome`,
`ProfileOutcome`), the database table becomes a list of rows, and each
route handler becomes a pure function from the environment, pool state,
table, and oracles to a result describing the HTTP response, the new
table, the fallback-file lines appended, and the trace of external
calls made.
-/

namespace BotCallback

/-- JavaScript truthiness of an optional string: `undefined` and the
empty string are falsy, every other string is truthy. -/
def truthy (o : Option String) : Bool :=
  match o with
  | none => false
  | some s => s != ""

/-- The environment variables read by the server (other than `PORT`). -/
structure Env where
  REDIRECT_URI : Option String
  CLIENT_ID : Option String
  CLIENT_SECRET : Option String
  MYSQLHOST : Option String
  MYSQLUSER : Option String
  MYSQLPASSWORD : Option String
  MYSQLDATABASE : Option String
  MYSQLPORT : Option String
  FILE_FALLBACK : Option String
  DEBUG : Option String
deriving Repr, DecidableEq

/-- `hasDbConfig` from the source: all four of
`MYSQLHOST`/`MYSQLUSER`/`MYSQLPASSWORD`/`MYSQLDATABASE` truthy. -/
def hasDbConfig (env : Env) : Bool :=
  truthy env.MYSQLHOST && truthy env.MYSQLUSER &&
  truthy env.MYSQLPASSWORD && truthy env.MYSQLDATABASE

/-- The `/callback` configuration check:
`REDIRECT_URI`, `CLIENT_ID`, `CLIENT_SECRET` all truthy. -/
def configOk (env : Env) : Bool :=
  truthy env.REDIRECT_URI && truthy env.CLIENT_ID && truthy env.CLIENT_SECRET

/-- `process.env.DEBUG === 'true'` (strict string equality, no truthiness). -/
def isDebug (env : Env) : Bool :=
  env.DEBUG == some "true"

/-- The nullable module-level `dbPool`: `disabled` models `dbPool === null`,
`enabled` models a live pool object. -/
inductive PoolState where
  | disabled
  | enabled
deriving Repr, DecidableEq

/-- Module initialization of `dbPool`: created only when `hasDbConfig`,
otherwise left `null` with no connection attempt. -/
def initialPool (env : Env) : PoolState :=
  if hasDbConfig env then PoolState.enabled else PoolState.disabled

/-- Result of `initDatabase()`: the pool state afterwards, whether
`dbPool.end()` was invoked, and whether a connection was attempted. -/
structure InitResult where
  state : PoolState
  closedPool : Bool
  attemptedConn : Bool
deriving Repr, DecidableEq

/-- `initDatabase()` from the source: returns immediately when the pool is
`null`; otherwise attempts a connection and the `CREATE TABLE` query
(outcome given by the oracle `schemaOk`), and on failure ends the pool
and assigns `dbPool = null`. -/
def initDatabase (p : PoolState) (schemaOk : Bool) : InitResult :=
  match p with
  | PoolState.disabled => ⟨PoolState.disabled, false, false⟩
  | PoolState.enabled =>
    if schemaOk then ⟨PoolState.enabled, false, true⟩
    else ⟨PoolState.disabled, true, true⟩

/-- One row of the `Tokens` table (the generated `id` and timestamp
columns are not modelled; `user_id` is the unique key). -/
structure TokenRow where
  user_id : String
  access_token : String
  refresh_token : String
deriving Repr, DecidableEq

/-- The `Tokens` table as a list of rows. -/
abbrev Table := List TokenRow

/-- The `UNIQUE` constraint on `user_id`: no two rows share a key. -/
def uniqueKeys (t : Table) : Prop :=
  (List.map (fun r => r.user_id) t).Nodup

instance (t : Table) : Decidable (uniqueKeys t) :=
  inferInstanceAs (Decidable (List.Nodup _))

/-- All rows of the table whose `user_id` equals `u`. -/
def recordsFor (t : Table) (u : String) : Table :=
  List.filter (fun r => r.user_id == u) t

/-- The `ON DUPLICATE KEY UPDATE` action on one row: replace
`access_token`/`refresh_token` when the key matches, else leave it. -/
def updRow (u a r : String) (row : TokenRow) : TokenRow :=
  if row.user_id == u then
    { row with access_token := a, refresh_token := r }
  else row

/-- The `INSERT ... ON DUPLICATE KEY UPDATE` statement: on a `user_id`
conflict update `access_token`/`refresh_token` of the conflicting row,
otherwise append a fresh row. -/
def upsertToken (t : Table) (u a r : String) : Table :=
  if List.any t (fun row => row.user_id == u) then
    List.map (updRow u a r) t
  else t ++ [⟨u, a, r⟩]

/-- A provider error body: its `error` field (if any) and its JSON
serialization (the body is arbitrary JSON, kept abstract as its
serialized form). -/
structure ProviderBody where
  error : Option String
  serialized : String
deriving Repr, DecidableEq

/-- An axios error as inspected by the catch block: `responseData` models
`error.response?.data` (present iff the provider answered with a body),
`message` models `error.message`. -/
structure AxiosFailure where
  responseData : Option ProviderBody
  message : String
deriving Repr, DecidableEq

/-- JSON serialization of a plain string. -/
def jsonQuote (s : String) : String :=
  "\"" ++ s ++ "\""

/-- `error.response?.data || error.message`, serialized as the debug
branch does with `JSON.stringify`. -/
def errDataStr (e : AxiosFailure) : String :=
  match e.responseData with
  | some b => b.serialized
  | none => jsonQuote e.message

/-- Outcome of the token-exchange POST. -/
inductive ExchangeOutcome where
  | ok (accessToken : String) (refreshToken : Option String)
  | err (e : AxiosFailure)
deriving Repr, DecidableEq

/-- Outcome of the profile GET. -/
inductive ProfileOutcome where
  | ok (id : String)
  | err (e : AxiosFailure)
deriving Repr, DecidableEq

/-- The oracles for one `/callback` request: what the provider answers,
whether the database connection/query succeeds, whether the
fallback-file append succeeds, and the current timestamp. -/
structure CallbackWorld where
  exchange : ExchangeOutcome
  profile : ProfileOutcome
  dbConnOk : Bool
  fileWriteOk : Bool
  now : String
deriving Repr, DecidableEq

/-- An HTTP response: status and body. -/
structure HttpResponse where
  status : Nat
  body : String
deriving Repr, DecidableEq

/-- External calls a `/callback` run can make, in order. -/
inductive Event where
  | exchangeCall
  | profileCall
  | dbQuery
  | fileAppend
deriving Repr, DecidableEq

/-- Result of one `/callback` request: the response, the pool state
afterwards (the handler never assigns `dbPool`), the table afterwards,
the strings appended to `tokens.log`, and the trace of external calls. -/
structure CallbackResult where
  resp : HttpResponse
  dbPool : PoolState
  table : Table
  fileLines : List String
  trace : List Event
deriving Repr, DecidableEq

/-- `x || ''` on the optional string `x`. -/
def jsOrEmpty (o : Option String) : String :=
  match o with
  | some s => if s == "" then "" else s
  | none => ""

/-- `x || null` on the optional string `x`. -/
def jsOrNull (o : Option String) : Option String :=
  match o with
  | some s => if s == "" then none else some s
  | none => none

/-- JSON serialization of a string-or-null value. -/
def jsonStrOrNull (o : Option String) : String :=
  match o with
  | some s => jsonQuote s
  | none => "null"

/-- `JSON.stringify` of the fallback record
`\x7bcreated_at, user_id, access_token, refresh_token\x7d`. -/
def fallbackLine (now uid aTok : String) (rTok : Option String) : String :=
  "\x7b\"created_at\":" ++ jsonQuote now ++
  ",\"user_id\":" ++ jsonQuote uid ++
  ",\"access_token\":" ++ jsonQuote aTok ++
  ",\"refresh_token\":" ++ jsonStrOrNull (jsOrNull rTok) ++ "\x7d"

/-- The fixed HTML confirmation page sent on success (the template
literal from the source). -/
def htmlSuccessPage : String :=
  "\n      <html>\n        <body style=\"font-family: sans-serif; text-align: center; padding: 60px; background: #2f3136; color: white;\">\n          <h2>✅ Autorizado!</h2>\n          <p>Você já pode voltar pro Discord e clicar em <strong>\"Já autorizei, continuar\"</strong>.</p>\n        </body>\n      </html>\n    "

/-- The catch block of `/callback`: debug mode first (500 with the
serialized payload), then the `invalid_grant` check (400), then the
generic 500. -/
def catchResponse (env : Env) (e : AxiosFailure) : HttpResponse :=
  if isDebug env then
    ⟨500, "Erro ao autorizar: " ++ errDataStr e⟩
  else if (match e.responseData with
           | some b => b.error == some "invalid_grant"
           | none => false) then
    ⟨400, "Código inválido ou expirado. Reinicie o fluxo de autorização e tente novamente."⟩
  else
    ⟨500, "Erro ao autorizar. Tente novamente."⟩

/-- The `/callback` handler.  Mirrors the source: missing `code` → 400;
missing configuration → 500; otherwise one exchange call, on its
success one profile call, then either a best-effort upsert (pool
enabled) or a best-effort file-fallback append (pool disabled and
`FILE_FALLBACK === 'true'`), and finally the fixed 200 HTML page.
Failures of the upsert or the append are caught and logged only. -/
def callbackHandler (env : Env) (dbPool : PoolState) (table : Table)
    (w : CallbackWorld) (code : Option String) : CallbackResult :=
  if truthy code = false then
    ⟨⟨400, "Código ausente."⟩, dbPool, table, [], []⟩
  else if configOk env = false then
    ⟨⟨500, "Variáveis de ambiente não configuradas."⟩, dbPool, table, [], []⟩
  else
    match w.exchange with
    | ExchangeOutcome.err e =>
      ⟨catchResponse env e, dbPool, table, [], [Event.exchangeCall]⟩
    | ExchangeOutcome.ok aTok rTok =>
      match w.profile with
      | ProfileOutcome.err e =>
        ⟨catchResponse env e, dbPool, table, [],
          [Event.exchangeCall, Event.profileCall]⟩
      | ProfileOutcome.ok uid =>
        match dbPool with
        | PoolState.enabled =>
          let table2 :=
            if w.dbConnOk then upsertToken table uid aTok (jsOrEmpty rTok)
            else table
          ⟨⟨200, htmlSuccessPage⟩, dbPool, table2, [],
            [Event.exchangeCall, Event.profileCall, Event.dbQuery]⟩
        | PoolState.disabled =>
          if env.FILE_FALLBACK == some "true" then
            let lines :=
              if w.fileWriteOk then [fallbackLine w.now uid aTok rTok ++ "\n"]
              else []
            ⟨⟨200, htmlSuccessPage⟩, dbPool, table, lines,
              [Event.exchangeCall, Event.profileCall, Event.fileAppend]⟩
          else
            ⟨⟨200, htmlSuccessPage⟩, dbPool, table, [],
              [Event.exchangeCall, Event.profileCall]⟩

/-- Result of one `/check` request: `res.json` always answers 200; we
record the boolean sent, the pool state afterwards, and whether a
`SELECT` was actually executed. -/
structure CheckResult where
  status : Nat
  hasToken : Bool
  dbPool : PoolState
  queried : Bool
deriving Repr, DecidableEq

/-- The `/check` handler.  Missing/empty `user_id` answers
`\x7bhasToken: false\x7d` without touching the pool; otherwise the
handler tries `dbPool.getConnection()` — which throws when `dbPool` is
`null` or the pool errors (oracle `connOk`) — and the bare catch turns
any failure into `\x7bhasToken: false\x7d`. -/
def checkHandler (dbPool : PoolState) (table : Table) (connOk : Bool)
    (userId : Option String) : CheckResult :=
  if truthy userId = false then
    ⟨200, false, dbPool, false⟩
  else
    match dbPool with
    | PoolState.disabled => ⟨200, false, dbPool, false⟩
    | PoolState.enabled =>
      if connOk then
        ⟨200, List.any table (fun r => r.user_id == userId.getD ""),
          dbPool, true⟩
      else ⟨200, false, dbPool, false⟩

/-! ## Helper lemmas about the `Tokens` table -/

theorem updRow_user_id (u a r : String) (row : TokenRow) :
    (updRow u a r row).user_id = row.user_id := by
  unfold updRow
  split <;> rfl

theorem recordsFor_eq_nil (t : Table) (u : String)
    (h : List.any t (fun row => row.user_id == u) = false) :
    recordsFor t u = [] := by
  rw [recordsFor, List.filter_eq_nil_iff]
  intro r hr hpr
  have hx : List.any t (fun row => row.user_id == u) = true :=
    List.any_eq_true.2 ⟨r, hr, hpr⟩
  rw [hx] at h
  exact Bool.noConfusion h

theorem recordsFor_map_updRow (t : Table) (u a r : String) :
    recordsFor (List.map (updRow u a r) t) u
      = List.map (updRow u a r) (recordsFor t u) := by
  unfold recordsFor
  rw [List.filter_map]
  congr 1
  apply List.filter_congr
  intro row _
  simp [Function.comp, updRow_user_id]

theorem recordsFor_singleton (t : Table) (u : String)
    (hmem : List.any t (fun row => row.user_id == u) = true)
    (hnd : uniqueKeys t) :
    ∃ w : TokenRow, recordsFor t u = [w] ∧ w.user_id = u := by
  induction t with
  | nil => simp at hmem
  | cons hd tl ih =>
    rw [uniqueKeys, List.map_cons, List.nodup_cons] at hnd
    obtain ⟨hni, hnd2⟩ := hnd
    by_cases hhd : hd.user_id = u
    · refine ⟨hd, ?_, hhd⟩
      unfold recordsFor
      rw [List.filter_cons]
      have htl : List.any tl (fun row => row.user_id == u) = false := by
        by_contra hcon
        rw [Bool.not_eq_false, List.any_eq_true] at hcon
        obtain ⟨r, hr, hpr⟩ := hcon
        rw [beq_iff_eq] at hpr
        exact hni (by rw [hhd, ← hpr] at *; exact List.mem_map_of_mem _ hr)
      have := recordsFor_eq_nil tl u htl
      unfold recordsFor at this
      simp [hhd, this]
    · have hmem2 : List.any tl (fun row => row.user_id == u) = true := by
        rw [List.any_cons] at hmem
        rcases Bool.or_eq_true_iff.1 hmem with h1 | h1
        · exact absurd (beq_iff_eq.1 h1) hhd
        · exact h1
      obtain ⟨w, hw, hwu⟩ := ih hmem2 hnd2
      refine ⟨w, ?_, hwu⟩
      unfold recordsFor
      rw [List.filter_cons]
      unfold recordsFor at hw
      simp [hhd, hw]

theorem recordsFor_upsertToken (t : Table) (u a r : String)
    (hnd : uniqueKeys t) :
    recordsFor (upsertToken t u a r) u = [⟨u, a, r⟩] := by
  unfold upsertToken
  by_cases hmem : List.any t (fun row => row.user_id == u) = true
  · rw [if_pos hmem, recordsFor_map_updRow]
    obtain ⟨w, hw, hwu⟩ := recordsFor_singleton t u hmem hnd
    rw [hw, List.map_cons, List.map_nil]
    have : updRow u a r w = ⟨u, a, r⟩ := by
      unfold updRow
      rw [if_pos (beq_iff_eq.2 hwu)]
      cases w
      simp_all
    rw [this]
  · rw [if_neg hmem]
    rw [Bool.not_eq_true] at hmem
    have h0 := recordsFor_eq_nil t u hmem
    unfold recordsFor at h0 ⊢
    rw [List.filter_append, h0]
    simp

theorem uniqueKeys_upsertToken (t : Table) (u a r : String)
    (hnd : uniqueKeys t) :
    uniqueKeys (upsertToken t u a r) := by
  unfold upsertToken
  by_cases hmem : List.any t (fun row => row.user_id == u) = true
  · rw [if_pos hmem]
    unfold uniqueKeys at hnd ⊢
    rw [List.map_map]
    have : ((fun row : TokenRow => row.user_id) ∘ updRow u a r)
        = fun row : TokenRow => row.user_id := by
      funext row
      simp [Function.comp, updRow_user_id]
    rw [this]
    exact hnd
  · rw [if_neg hmem]
    rw [Bool.not_eq_true] at hmem
    unfold uniqueKeys at hnd ⊢
    rw [List.map_append, List.map_cons, List.map_nil]
    rw [List.nodup_append]
    refine ⟨hnd, List.nodup_singleton u, ?_⟩
    intro x hx hx2
    rw [List.mem_singleton] at hx2
    obtain ⟨r0, hr0, hr0u⟩ := List.mem_map.1 hx
    have hany : List.any t (fun row => row.user_id == u) = true :=
      List.any_eq_true.2 ⟨r0, hr0, beq_iff_eq.2 (by rw [hr0u, hx2])⟩
    rw [hany] at hmem
    exact Bool.noConfusion hmem

/-! ## Pool-state helper lemmas -/

theorem callbackHandler_dbPool (env : Env) (dbPool : PoolState)
    (table : Table) (w : CallbackWorld) (code : Option String) :
    (callbackHandler env dbPool table w code).dbPool = dbPool := by
  rcases w with ⟨ex, pr, dc, fw, now⟩
  cases ex <;> cases pr <;> cases dbPool <;>
    simp only [callbackHandler] <;> (repeat' split) <;> rfl

theorem checkHandler_dbPool (dbPool : PoolState) (table : Table)
    (connOk : Bool) (userId : Option String) :
    (checkHandler dbPool table connOk userId).dbPool = dbPool := by
  cases dbPool <;> simp only [checkHandler] <;> (repeat' split) <;> rfl

/-! ## Concrete fixtures used by the witnesses -/

/-- A fully configured environment (persistence enabled, no debug, no
file fallback). -/
def envFull : Env :=
  ⟨some "https://cb.example/callback", some "cid", some "secret",
   some "db.host", some "dbuser", some "dbpass", some "dbname",
   some "3306", none, none⟩

/-- `envFull` with `DEBUG='true'`. -/
def envDebug : Env :=
  { envFull with DEBUG := some "true" }

/-- `envFull` with the database host missing (persistence disabled). -/
def envNoDb : Env :=
  { envFull with MYSQLHOST := none }

/-- `envNoDb` with `FILE_FALLBACK='true'`. -/
def envFallback : Env :=
  { envNoDb with FILE_FALLBACK := some "true" }

/-- `envFull` with `CLIENT_SECRET` missing. -/
def envNoCfg : Env :=
  { envFull with CLIENT_SECRET := none }

/-- A run in which both provider calls and both storage paths succeed. -/
def wOk : CallbackWorld :=
  ⟨ExchangeOutcome.ok "tokA" (some "tokR"), ProfileOutcome.ok "user1",
   true, true, "2026-10-12T00:00:00.000Z"⟩

/-- A provider error body carrying `error=invalid_grant`. -/
def bodyInvalidGrant : ProviderBody :=
  ⟨some "invalid_grant", "\x7b\"error\":\"invalid_grant\"\x7d"⟩

/-- An axios failure whose response body is `bodyInvalidGrant`. -/
def failInvalidGrant : AxiosFailure :=
  ⟨some bodyInvalidGrant, "Request failed with status code 400"⟩

/-- A run in which the token exchange fails with `invalid_grant`. -/
def wFail : CallbackWorld :=
  ⟨ExchangeOutcome.err failInvalidGrant, ProfileOutcome.ok "user1",
   true, true, "2026-10-12T00:00:00.000Z"⟩

/-! ## Claim theorems -/

/-- C6: upserting `(u, a1, r1)` then `(u, a2, r2)` into a table whose
keys are unique leaves exactly one stored record for `u`, holding
`a2`/`r2`, and key uniqueness is preserved (at most one `TokenRecord`
per `userId` ever exists). -/
theorem upsert_idempotent_single_record (t : Table) (u a1 r1 a2 r2 : String)
    (hnd : uniqueKeys t) :
    recordsFor (upsertToken (upsertToken t u a1 r1) u a2 r2) u
      = [⟨u, a2, r2⟩]
    ∧ uniqueKeys (upsertToken (upsertToken t u a1 r1) u a2 r2) :=
  ⟨recordsFor_upsertToken _ u a2 r2 (uniqueKeys_upsertToken t u a1 r1 hnd),
   uniqueKeys_upsertToken _ u a2 r2 (uniqueKeys_upsertToken t u a1 r1 hnd)⟩

/-- Witness for C6 at a concrete table. -/
theorem upsert_idempotent_single_record_witness :
    recordsFor
        (upsertToken
          (upsertToken [⟨"v", "x", "y"⟩] "u" "a1" "r1") "u" "a2" "r2") "u"
      = [⟨"u", "a2", "r2"⟩]
    ∧ uniqueKeys
        (upsertToken
          (upsertToken [⟨"v", "x", "y"⟩] "u" "a1" "r1") "u" "a2" "r2") :=
  upsert_idempotent_single_record [⟨"v", "x", "y"⟩] "u" "a1" "r1" "a2" "r2"
    (by decide)

/-- C1: whenever the token exchange and the profile fetch both succeed,
`/callback` answers 200 with the fixed HTML page, for every pool state,
table, database outcome, fallback flag, and fallback-write outcome. -/
theorem callback_success_response (env : Env) (dbPool : PoolState)
    (table : Table) (w : CallbackWorld) (code : Option String)
    (a u : String) (r : Option String)
    (hcode : truthy code = true) (hcfg : configOk env = true)
    (hex : w.exchange = ExchangeOutcome.ok a r)
    (hpr : w.profile = ProfileOutcome.ok u) :
    (callbackHandler env dbPool table w code).resp = ⟨200, htmlSuccessPage⟩ := by
  cases dbPool <;>
    simp [callbackHandler, hcode, hcfg, hex, hpr] <;> split <;> simp

/-- Witness for C1: a concrete successful run with persistence enabled. -/
theorem callback_success_response_witness :
    (callbackHandler envFull PoolState.enabled [] wOk (some "abc")).resp
      = ⟨200, htmlSuccessPage⟩ :=
  callback_success_response envFull PoolState.enabled [] wOk (some "abc")
    "tokA" "user1" (some "tokR") (by decide) (by decide) rfl rfl

/-- C8: a `/callback` request without a (truthy) `code` answers 400 with
the fixed message, and one with a `code` but incomplete configuration
answers 500 with the fixed message; in both cases the table, the
fallback file, and the trace of outbound calls are untouched. -/
theorem callback_validation (env : Env) (dbPool : PoolState) (table : Table)
    (w : CallbackWorld) (code : Option String) :
    (truthy code = false →
      callbackHandler env dbPool table w code
        = ⟨⟨400, "Código ausente."⟩, dbPool, table, [], []⟩)
    ∧ (truthy code = true → configOk env = false →
      callbackHandler env dbPool table w code
        = ⟨⟨500, "Variáveis de ambiente não configuradas."⟩,
            dbPool, table, [], []⟩) := by
  constructor
  · intro h
    simp [callbackHandler, h]
  · intro h1 h2
    simp [callbackHandler, h1, h2]

/-- Witness for C8: a request without `code`, and one with `code` but
without `CLIENT_SECRET`. -/
theorem callback_validation_witness :
    callbackHandler envFull PoolState.enabled [] wOk none
      = ⟨⟨400, "Código ausente."⟩, PoolState.enabled, [], [], []⟩
    ∧ callbackHandler envNoCfg PoolState.enabled [] wOk (some "abc")
      = ⟨⟨500, "Variáveis de ambiente não configuradas."⟩,
          PoolState.enabled, [], [], []⟩ :=
  ⟨(callback_validation envFull PoolState.enabled [] wOk none).1 (by decide),
   (callback_validation envNoCfg PoolState.enabled [] wOk (some "abc")).2
     (by decide) (by decide)⟩

/-- C7: with a truthy `code` and complete configuration, a `/callback`
run makes exactly one exchange call; it makes exactly one profile call
when the exchange succeeds and none when it fails; the first external
call is always the exchange; and no external call is made twice. -/
theorem callback_call_discipline (env : Env) (dbPool : PoolState)
    (table : Table) (w : CallbackWorld) (code : Option String)
    (hcode : truthy code = true) (hcfg : configOk env = true) :
    ((callbackHandler env dbPool table w code).trace.count
        Event.exchangeCall = 1)
    ∧ (∀ a r, w.exchange = ExchangeOutcome.ok a r →
        (callbackHandler env dbPool table w code).trace.count
          Event.profileCall = 1)
    ∧ (∀ e, w.exchange = ExchangeOutcome.err e →
        (callbackHandler env dbPool table w code).trace.count
          Event.profileCall = 0)
    ∧ ((callbackHandler env dbPool table w code).trace.head?
        = some Event.exchangeCall)
    ∧ (∀ ev : Event,
        (callbackHandler env dbPool table w code).trace.count ev ≤ 1) := by
  rcases w with ⟨ex, pr, dc, fw, now⟩
  refine ⟨?_, ?_, ?_, ?_, ?_⟩
  · cases ex <;> cases pr <;> cases dbPool <;>
      (try simp [callbackHandler, hcode, hcfg]) <;> (repeat' split) <;>
      (first | rfl | exact Nat.zero_le _ | exact Nat.le_refl _ | trivial)
  · intro a r hex
    subst hex
    cases pr <;> cases dbPool <;>
      (try simp [callbackHandler, hcode, hcfg]) <;> (repeat' split) <;>
      (first | rfl | exact Nat.zero_le _ | exact Nat.le_refl _ | trivial)
  · intro e hex
    subst hex
    cases pr <;> cases dbPool <;>
      (try simp [callbackHandler, hcode, hcfg]) <;> (repeat' split) <;>
      (first | rfl | exact Nat.zero_le _ | exact Nat.le_refl _ | trivial)
  · cases ex <;> cases pr <;> cases dbPool <;>
      (try simp [callbackHandler, hcode, hcfg]) <;> (repeat' split) <;>
      (first | rfl | exact Nat.zero_le _ | exact Nat.le_refl _ | trivial)
  · intro ev
    cases ex <;> cases pr <;> cases dbPool <;> cases ev <;>
      (try simp [callbackHandler, hcode, hcfg]) <;> (repeat' split) <;>
      (first | rfl | exact Nat.zero_le _ | exact Nat.le_refl _ | trivial)

/-- Witness for C7: a concrete successful run. -/
theorem callback_call_discipline_witness :
    ((callbackHandler envFull PoolState.enabled [] wOk (some "abc")).trace.count
        Event.exchangeCall = 1)
    ∧ ((callbackHandler envFull PoolState.enabled [] wOk (some "abc")).trace.count
        Event.profileCall = 1) :=
  ⟨(callback_call_discipline envFull PoolState.enabled [] wOk (some "abc")
      (by decide) (by decide)).1,
   (callback_call_discipline envFull PoolState.enabled [] wOk (some "abc")
      (by decide) (by decide)).2.1 "tokA" (some "tokR") rfl⟩

/-- C3 counterexample: with `DEBUG='true'` in the environment, an
exchange failure whose provider body says `error=invalid_grant` is
answered 500 (the debug branch runs first), not 400 as the claim
states. -/
theorem invalid_grant_debug_counterexample :
    (callbackHandler envDebug PoolState.enabled [] wFail (some "abc")).resp.status
        = 500
    ∧ (callbackHandler envDebug PoolState.enabled [] wFail (some "abc")).resp.status
        ≠ 400 := by
  constructor
  · rfl
  · intro h
    exact absurd (rfl.trans h) (by decide)

/-- C3 amended: when debug mode is off (`DEBUG` is not `'true'`), an
exchange failure whose provider body says `error=invalid_grant` is
answered 400 with the fixed restart-the-flow message. -/
theorem invalid_grant_yields_400 (env : Env) (dbPool : PoolState)
    (table : Table) (w : CallbackWorld) (code : Option String)
    (e : AxiosFailure) (b : ProviderBody)
    (hcode : truthy code = true) (hcfg : configOk env = true)
    (hdbg : isDebug env = false)
    (hex : w.exchange = ExchangeOutcome.err e)
    (hb : e.responseData = some b)
    (herr : b.error = some "invalid_grant") :
    (callbackHandler env dbPool table w code).resp
      = ⟨400, "Código inválido ou expirado. Reinicie o fluxo de autorização e tente novamente."⟩ := by
  simp [callbackHandler, hcode, hcfg, hex, catchResponse, hdbg, hb, herr]

/-- Witness for the amended C3: a concrete non-debug `invalid_grant`
failure. -/
theorem invalid_grant_yields_400_witness :
    (callbackHandler envFull PoolState.enabled [] wFail (some "abc")).resp
      = ⟨400, "Código inválido ou expirado. Reinicie o fluxo de autorização e tente novamente."⟩ :=
  invalid_grant_yields_400 envFull PoolState.enabled [] wFail (some "abc")
    failInvalidGrant bodyInvalidGrant (by decide) (by decide) (by decide)
    rfl rfl rfl

/-- C10: with `DEBUG='true'`, every exchange or profile-fetch failure —
including an `invalid_grant` provider error — is answered 500 with the
serialized error payload; the 400 invalid-grant branch never runs. -/
theorem debug_mode_serialized_500 (env : Env) (dbPool : PoolState)
    (table : Table) (w : CallbackWorld) (code : Option String)
    (e : AxiosFailure)
    (hcode : truthy code = true) (hcfg : configOk env = true)
    (hdbg : env.DEBUG = some "true") :
    (w.exchange = ExchangeOutcome.err e →
      (callbackHandler env dbPool table w code).resp
        = ⟨500, "Erro ao autorizar: " ++ errDataStr e⟩)
    ∧ (∀ a r, w.exchange = ExchangeOutcome.ok a r →
        w.profile = ProfileOutcome.err e →
        (callbackHandler env dbPool table w code).resp
          = ⟨500, "Erro ao autorizar: " ++ errDataStr e⟩) := by
  constructor
  · intro hex
    simp [callbackHandler, hcode, hcfg, hex, catchResponse, isDebug, hdbg]
  · intro a r hex hpr
    simp [callbackHandler, hcode, hcfg, hex, hpr, catchResponse, isDebug, hdbg]

/-- Witness for C10: a concrete debug-mode `invalid_grant` failure. -/
theorem debug_mode_serialized_500_witness :
    (callbackHandler envDebug PoolState.enabled [] wFail (some "abc")).resp
      = ⟨500, "Erro ao autorizar: " ++ errDataStr failInvalidGrant⟩ :=
  (debug_mode_serialized_500 envDebug PoolState.enabled [] wFail (some "abc")
    failInvalidGrant (by decide) (by decide) rfl).1 rfl

/-- C4: `/check` always answers 200; a missing (or empty, hence falsy)
`user_id` is answered `hasToken=false` without any query; with the pool
enabled and a working connection the answer is `hasToken=true` iff a row
with that `user_id` exists; and any storage failure — the pool being
`null` included — collapses to `hasToken=false`. -/
theorem check_route_contract (dbPool : PoolState) (table : Table)
    (connOk : Bool) (userId : Option String) :
    ((checkHandler dbPool table connOk userId).status = 200)
    ∧ (truthy userId = false →
        checkHandler dbPool table connOk userId = ⟨200, false, dbPool, false⟩)
    ∧ (truthy userId = true → dbPool = PoolState.enabled → connOk = true →
        ((checkHandler dbPool table connOk userId).hasToken = true
          ↔ ∃ row ∈ table, row.user_id = userId.getD ""))
    ∧ ((dbPool = PoolState.disabled ∨ connOk = false) →
        (checkHandler dbPool table connOk userId).hasToken = false) := by
  refine ⟨?_, ?_, ?_, ?_⟩
  · cases dbPool <;> simp only [checkHandler] <;> (repeat' split) <;> rfl
  · intro h
    simp [checkHandler, h]
  · intro h1 h2 h3
    subst h2
    subst h3
    simp [checkHandler, h1, List.any_eq_true]
  · intro h
    rcases h with h | h
    · subst h
      simp only [checkHandler]
      (repeat' split) <;> rfl
    · subst h
      cases dbPool <;> simp only [checkHandler] <;> (repeat' split) <;>
        first | rfl | simp_all

/-- Witness for C4: a concrete lookup that finds the stored row. -/
theorem check_route_contract_witness :
    ((checkHandler PoolState.enabled [⟨"u1", "a", "r"⟩] true (some "u1")).status
        = 200)
    ∧ ((checkHandler PoolState.enabled [⟨"u1", "a", "r"⟩] true (some "u1")).hasToken
          = true
        ↔ ∃ row ∈ [(⟨"u1", "a", "r"⟩ : TokenRow)],
            row.user_id = (some "u1").getD "") :=
  ⟨(check_route_contract PoolState.enabled [⟨"u1", "a", "r"⟩] true
      (some "u1")).1,
   (check_route_contract PoolState.enabled [⟨"u1", "a", "r"⟩] true
      (some "u1")).2.2.1 (by decide) rfl rfl⟩

/-- C5: with persistence disabled, a fully successful exchange appends
exactly one serialized fallback record (terminated by a newline) when
`FILE_FALLBACK='true'` and the write succeeds; appends nothing when
`FILE_FALLBACK` is unset; a failed write appends nothing; and in every
case the response is the fixed 200 page. -/
theorem file_fallback_behavior (env : Env) (table : Table)
    (w : CallbackWorld) (code : Option String) (a u : String)
    (r : Option String)
    (hcode : truthy code = true) (hcfg : configOk env = true)
    (hex : w.exchange = ExchangeOutcome.ok a r)
    (hpr : w.profile = ProfileOutcome.ok u) :
    (env.FILE_FALLBACK = some "true" → w.fileWriteOk = true →
      (callbackHandler env PoolState.disabled table w code).fileLines
        = [fallbackLine w.now u a r ++ "\n"])
    ∧ (env.FILE_FALLBACK = none →
      (callbackHandler env PoolState.disabled table w code).fileLines = [])
    ∧ (w.fileWriteOk = false →
      (callbackHandler env PoolState.disabled table w code).fileLines = [])
    ∧ ((callbackHandler env PoolState.disabled table w code).resp
        = ⟨200, htmlSuccessPage⟩) := by
  refine ⟨?_, ?_, ?_, ?_⟩
  · intro hf hw
    simp [callbackHandler, hcode, hcfg, hex, hpr, hf, hw]
  · intro hf
    simp [callbackHandler, hcode, hcfg, hex, hpr, hf]
  · intro hw
    simp only [callbackHandler, hcode, hcfg, hex, hpr]
    (repeat' split) <;> simp_all
  · simp only [callbackHandler, hcode, hcfg, hex, hpr]
    (repeat' split) <;> simp_all

/-- Witness for C5: a concrete fallback append. -/
theorem file_fallback_behavior_witness :
    (callbackHandler envFallback PoolState.disabled [] wOk (some "abc")).fileLines
      = [fallbackLine wOk.now "user1" "tokA" (some "tokR") ++ "\n"]
    ∧ (callbackHandler envFallback PoolState.disabled [] wOk (some "abc")).resp
      = ⟨200, htmlSuccessPage⟩ :=
  ⟨(file_fallback_behavior envFallback [] wOk (some "abc") "tokA" "user1"
      (some "tokR") (by decide) (by decide) rfl rfl).1 rfl rfl,
   (file_fallback_behavior envFallback [] wOk (some "abc") "tokA" "user1"
      (some "tokR") (by decide) (by decide) rfl rfl).2.2.2⟩

/-- C9: when the provider's token response omits `refresh_token` and the
upsert runs (pool enabled, connection working), the single stored record
for the user carries the empty string as its refresh token. -/
theorem omitted_refresh_stored_empty (env : Env) (table : Table)
    (w : CallbackWorld) (code : Option String) (a u : String)
    (hcode : truthy code = true) (hcfg : configOk env = true)
    (hex : w.exchange = ExchangeOutcome.ok a none)
    (hpr : w.profile = ProfileOutcome.ok u)
    (hconn : w.dbConnOk = true) (hnd : uniqueKeys table) :
    recordsFor (callbackHandler env PoolState.enabled table w code).table u
      = [⟨u, a, ""⟩] := by
  have htab :
      (callbackHandler env PoolState.enabled table w code).table
        = upsertToken table u a "" := by
    simp [callbackHandler, hcode, hcfg, hex, hpr, hconn, jsOrEmpty]
  rw [htab]
  exact recordsFor_upsertToken table u a "" hnd

/-- Witness for C9: a concrete exchange without a `refresh_token`. -/
theorem omitted_refresh_stored_empty_witness :
    recordsFor
        (callbackHandler envFull PoolState.enabled []
          ⟨ExchangeOutcome.ok "tokA" none, ProfileOutcome.ok "user1",
            true, true, "now"⟩ (some "abc")).table "user1"
      = [⟨"user1", "tokA", ""⟩] :=
  omitted_refresh_stored_empty envFull []
    ⟨ExchangeOutcome.ok "tokA" none, ProfileOutcome.ok "user1",
      true, true, "now"⟩ (some "abc") "tokA" "user1"
    (by decide) (by decide) rfl rfl rfl (by decide)

/-- C2: the persistence adapter's state transitions — a missing required
database configuration field yields the disabled (null-pool) state with
no connection attempt; a schema-creation failure at startup closes the
pool and disables persistence; and neither route handler ever changes
the pool state, so query errors never demote enabled to disabled. -/
theorem persistence_state_machine (env : Env) (schemaOk : Bool) :
    (hasDbConfig env = false →
      initialPool env = PoolState.disabled
      ∧ (initDatabase (initialPool env) schemaOk).attemptedConn = false)
    ∧ ((initDatabase PoolState.enabled false).state = PoolState.disabled
       ∧ (initDatabase PoolState.enabled false).closedPool = true)
    ∧ (∀ dbPool table w code,
        (callbackHandler env dbPool table w code).dbPool = dbPool)
    ∧ (∀ dbPool table connOk userId,
        (checkHandler dbPool table connOk userId).dbPool = dbPool) := by
  refine ⟨?_, ⟨rfl, rfl⟩, ?_, ?_⟩
  · intro h
    simp [initialPool, h, initDatabase]
  · intro dbPool table w code
    exact callbackHandler_dbPool env dbPool table w code
  · intro dbPool table connOk userId
    exact checkHandler_dbPool dbPool table connOk userId

/-- Witness for C2: the environment with no database host. -/
theorem persistence_state_machine_witness :
    initialPool envNoDb = PoolState.disabled
    ∧ (callbackHandler envNoDb PoolState.enabled [] wOk (some "abc")).dbPool
        = PoolState.enabled :=
  ⟨((persistence_state_machine envNoDb true).1 (by decide)).1,
   (persistence_state_machine envNoDb true).2.2.1 PoolState.enabled [] wOk
     (some "abc")⟩

end BotCallback
